import Mathlib

/-!
Verification of `opengb` (src/opengb/printer/base.py): the printer
controller's state enum, JSON event callbacks, queue publishing and the
state-update operation, shallowly embedded in Lean 4.
-/

namespace OpenGB

/-- Embedding of the `State` enum (src/opengb/printer/base.py, class State):
DISCONNECTED = 10, READY = 20, EXECUTING = 30, PAUSED = 40, ERROR = 100. -/
inductive State where
  | DISCONNECTED
  | READY
  | EXECUTING
  | PAUSED
  | ERROR
deriving DecidableEq

/-- The `.value` attribute of a `State` member: its fixed integer ordinal. -/
def State.value : State → Int
  | .DISCONNECTED => 10
  | .READY => 20
  | .EXECUTING => 30
  | .PAUSED => 40
  | .ERROR => 100

/-- The `.name` attribute of a `State` member (used by `StateEncoder`). -/
def State.name : State → String
  | .DISCONNECTED => "DISCONNECTED"
  | .READY => "READY"
  | .EXECUTING => "EXECUTING"
  | .PAUSED => "PAUSED"
  | .ERROR => "ERROR"

/-- JSON values, as produced by the callback methods before `json.dumps`:
strings, integers, floating-point numbers (modelled as rationals, since the
code only passes them through without arithmetic), and objects whose fields
keep Python dict insertion order. -/
inductive JValue where
  | str (s : String)
  | int (n : Int)
  | rat (q : Rat)
  | obj (fields : List (String × JValue))

mutual

/-- Embedding of `json.dumps` applied to the event dicts: renders a `JValue`
to its serialized text.  Keys and string values in this development contain
no characters needing escapes; number rendering abstracts Python float repr
(the claims only compare serializations produced by this same function). -/
def json.dumps : JValue → String
  | .str s => "\"" ++ s ++ "\""
  | .int n => toString n
  | .rat q => toString q
  | .obj fields => "\x7b" ++ json.dumpsFields fields ++ "\x7d"

/-- Renders the comma-separated field list of a JSON object. -/
def json.dumpsFields : List (String × JValue) → String
  | [] => ""
  | [(k, v)] => "\"" ++ k ++ "\": " ++ json.dumps v
  | (k, v) :: rest => "\"" ++ k ++ "\": " ++ json.dumps v ++ ", " ++ json.dumpsFields rest

end

/-- Embedding of a `multiprocessing.Queue` holding serialized records:
`maxsize = 0` means unbounded (the Python default), otherwise the queue is
bounded at `maxsize` items.  `items` lists current contents, oldest first. -/
structure MPQueue where
  maxsize : Nat
  items : List String
deriving DecidableEq

/-- Whether a `put` can place an item right now: the queue is unbounded or
strictly below its bound. -/
def MPQueue.hasRoom (q : MPQueue) : Bool :=
  q.maxsize == 0 || q.items.length < q.maxsize

/-- Outcome of `multiprocessing.Queue.put` with the default arguments
`block=True, timeout=None`: either the item was placed, or the queue was
bounded and full and the call blocks indefinitely waiting for a free slot. -/
inductive PutOutcome where
  | placed (q : MPQueue)
  | blocked
deriving DecidableEq

/-- Embedding of `multiprocessing.Queue.put(obj)` (default `block=True`,
`timeout=None`): appends when there is room, otherwise blocks. -/
def MPQueue.put (q : MPQueue) (x : String) : PutOutcome :=
  if q.hasRoom then .placed { q with items := q.items ++ [x] }
  else .blocked

namespace QueuedPrinterCallbacks

/-- Embedding of `QueuedPrinterCallbacks._publish(event)`: sets
`event['jsonrpc'] = '2.0'` (appended last, matching dict insertion order,
since no caller passes a `jsonrpc` key) and calls
`from_printer.put(json.dumps(event))`. -/
def publish (from_printer : MPQueue) (event : List (String × JValue)) : PutOutcome :=
  from_printer.put (json.dumps (JValue.obj (event ++ [("jsonrpc", JValue.str "2.0")])))

/-- Embedding of `QueuedPrinterCallbacks.log(level, message)`. -/
def log (q : MPQueue) (level : Int) (message : String) : PutOutcome :=
  publish q [("event", .str "log"),
             ("params", .obj [("level", .int level), ("msg", .str message)])]

/-- Embedding of `QueuedPrinterCallbacks.state_change(old, new)`: params carry
the enum ordinals `old.value` and `new.value`. -/
def state_change (q : MPQueue) (old new : State) : PutOutcome :=
  publish q [("event", .str "state_change"),
             ("params", .obj [("old", .int old.value), ("new", .int new.value)])]

/-- Embedding of `QueuedPrinterCallbacks.temp_update(...)`. -/
def temp_update (q : MPQueue) (bed_current bed_target nozzle1_current
    nozzle1_target nozzle2_current nozzle2_target : Rat) : PutOutcome :=
  publish q [("event", .str "temp_update"),
             ("params", .obj [("bed_current", .rat bed_current),
                              ("bed_target", .rat bed_target),
                              ("nozzle1_current", .rat nozzle1_current),
                              ("nozzle1_target", .rat nozzle1_target),
                              ("nozzle2_current", .rat nozzle2_current),
                              ("nozzle2_target", .rat nozzle2_target)])]

/-- Embedding of `QueuedPrinterCallbacks.position_update(x, y, z)`. -/
def position_update (q : MPQueue) (x y z : Rat) : PutOutcome :=
  publish q [("event", .str "position_update"),
             ("params", .obj [("x", .rat x), ("y", .rat y), ("z", .rat z)])]

/-- Embedding of `QueuedPrinterCallbacks.progress_update(current_line, total_lines)`. -/
def progress_update (q : MPQueue) (current_line total_lines : Int) : PutOutcome :=
  publish q [("event", .str "progress_update"),
             ("params", .obj [("current_line", .int current_line),
                              ("total_lines", .int total_lines)])]

/-- Embedding of `QueuedPrinterCallbacks.z_change(position)`: unlike every
other event method, the payload is flat, not wrapped under `params`. -/
def z_change (q : MPQueue) (position : Rat) : PutOutcome :=
  publish q [("event", .str "z_change"), ("position", .rat position)]

end QueuedPrinterCallbacks

/- Embedding of the `PrinterCallbacks` base class: every method body is
`pass`.  A method call is modelled as the list of records it publishes,
which is always empty. -/
namespace PrinterCallbacks

/-- `PrinterCallbacks.log`: `pass`, publishes nothing. -/
def log (level : Int) (message : String) : List String := []

/-- `PrinterCallbacks.state_change`: `pass`, publishes nothing. -/
def state_change (old new : State) : List String := []

/-- `PrinterCallbacks.temp_update`: `pass`, publishes nothing. -/
def temp_update (bed_current bed_target nozzle1_current nozzle1_target
    nozzle2_current nozzle2_target : Rat) : List String := []

/-- `PrinterCallbacks.position_update`: `pass`, publishes nothing. -/
def position_update (x y z : Rat) : List String := []

/-- `PrinterCallbacks.progress_update`: `pass`, publishes nothing. -/
def progress_update (current_line total_lines : Int) : List String := []

/-- `PrinterCallbacks.z_change`: `pass`, publishes nothing. -/
def z_change (new_z : Rat) : List String := []

end PrinterCallbacks

/-- The two callback-sink variants an `IPrinter` can hold: the no-op base
`PrinterCallbacks` and the queue-publishing `QueuedPrinterCallbacks`. -/
inductive CallbackKind where
  | base
  | queued
deriving DecidableEq

namespace IPrinter

/-- Embedding of the callback selection in `IPrinter.__init__`: when
`printer_callbacks` is `None`, `self._callbacks = PrinterCallbacks()`,
otherwise the given callbacks object. -/
def initCallbacks : Option CallbackKind → CallbackKind
  | none => CallbackKind.base
  | some printer_callbacks => printer_callbacks

/-- The observable controller state an `IPrinter` carries for state changes:
`state` embeds `self._state`, and `events` records every
`state_change(old, new)` callback invocation fired so far, in order. -/
structure PrinterState where
  state : State
  events : List (State × State)
deriving DecidableEq

/-- Embedding of `IPrinter.__init__`: `self._state = State.DISCONNECTED`,
and no callback has fired yet. -/
def init : PrinterState := { state := State.DISCONNECTED, events := [] }

/-- Embedding of `IPrinter._update_state(new_state)`:
`old_state = self._state; self._state = new_state;
self._callbacks.state_change(old_state, new_state)`. -/
def update_state (p : PrinterState) (new_state : State) : PrinterState :=
  { state := new_state, events := p.events ++ [(p.state, new_state)] }

/-- A finite sequence of `_update_state` calls, applied in order. -/
def runUpdates (p : PrinterState) (ns : List State) : PrinterState :=
  ns.foldl update_state p

/-- The state-change events form a consistent chain starting at `s`: the
first event's old field is `s` and each event's old field is the previous
event's new field. -/
def chainFrom (s : State) : List (State × State) → Bool
  | [] => true
  | (old, new) :: rest => old == s && chainFrom new rest

/-- The state reached after a chain of events starting at `s`. -/
def endState (s : State) : List (State × State) → State
  | [] => s
  | (_, new) :: rest => endState new rest

end IPrinter

/-- A Python value handed to a JSON encoder's `default` hook: either an
`enum.Enum` instance, identified by its `.name` attribute (`State` is the
only enum this repository defines), or any non-enum object. -/
inductive PyValue where
  | enumMember (name : String)
  | other (description : String)
deriving DecidableEq

/-- Embedding of the base `json.JSONEncoder.default(self, o)`: it always
raises `TypeError` (the base encoder cannot serialize any object that
reaches `default`). -/
def JSONEncoder.default (obj : PyValue) : Except String String :=
  Except.error "TypeError"

/-- Embedding of `StateEncoder.default(self, obj)`: if
`isinstance(obj, enum.Enum)` return `obj.name`, else delegate to
`json.JSONEncoder.default`. -/
def StateEncoder.default (obj : PyValue) : Except String String :=
  match obj with
  | .enumMember name => Except.ok name
  | .other _ => JSONEncoder.default obj

/-- The `PyValue` a `State` member presents to an encoder: an enum instance
whose `.name` is the member's name. -/
def State.toPy (s : State) : PyValue := PyValue.enumMember s.name

/-- Modelled from the spec: the state-gated controller operations of section
4.1's precondition table.  In src/opengb/printer/base.py these methods
(`set_temp`, `move_head_relative`, `move_head_absolute`, `home_head`,
`execute_gcode`, `pause_execution`, `resume_execution`, `stop_execution`)
are abstract stubs whose bodies are `pass`; the concrete gated
implementations are not under src/, so the gating is modelled from the
spec's words. -/
inductive Op where
  | set_temp
  | move_head_relative
  | move_head_absolute
  | home_head
  | execute_gcode
  | pause_execution
  | resume_execution
  | stop_execution
deriving DecidableEq

/-- Modelled from the spec: the required current states of each operation,
from the section 4.1 table (set_temp and movement require READY or PAUSED;
execute_gcode requires READY; pause requires EXECUTING; resume requires
PAUSED; stop requires EXECUTING or PAUSED). -/
def Op.required : Op → List State
  | .set_temp | .move_head_relative | .move_head_absolute | .home_head =>
      [State.READY, State.PAUSED]
  | .execute_gcode => [State.READY]
  | .pause_execution => [State.EXECUTING]
  | .resume_execution => [State.PAUSED]
  | .stop_execution => [State.EXECUTING, State.PAUSED]

/-- Modelled from the spec: the resulting state of each operation when its
precondition holds (section 4.1 table). -/
def Op.nextState : Op → State → State
  | .set_temp, s | .move_head_relative, s | .move_head_absolute, s | .home_head, s => s
  | .execute_gcode, _ => State.EXECUTING
  | .pause_execution, _ => State.PAUSED
  | .resume_execution, _ => State.EXECUTING
  | .stop_execution, _ => State.READY

/-- A controller as seen by the gated operations: its current state and the
log of hardware commands issued so far. -/
structure Controller where
  state : State
  hw : List Op
deriving DecidableEq

/-- Outcome of invoking a gated operation: either it runs (new controller),
or it raises `NotReadyException`, returning with the controller unchanged. -/
inductive InvokeResult where
  | ok (c : Controller)
  | notReady (c : Controller)
deriving DecidableEq

/-- Modelled from the spec: a state-gated operation checks the controller's
state against its precondition first; outside it, it raises
`NotReadyException` with no hardware side effect and no state change;
inside it, it issues the hardware command and moves to the resulting
state. -/
def Controller.invoke (c : Controller) (op : Op) : InvokeResult :=
  if c.state ∈ op.required then
    InvokeResult.ok { state := op.nextState c.state, hw := c.hw ++ [op] }
  else
    InvokeResult.notReady c

end OpenGB

namespace OpenGB

/-- C2: the State enumeration has exactly the five members DISCONNECTED,
READY, EXECUTING, PAUSED, ERROR with ordinals 10, 20, 30, 40, 100, and
ERROR's ordinal is strictly greater than every other state's. -/
theorem C2_state_enum_ordinals :
    (∀ s : State, s = State.DISCONNECTED ∨ s = State.READY ∨ s = State.EXECUTING ∨
      s = State.PAUSED ∨ s = State.ERROR) ∧
    (State.DISCONNECTED.value = 10 ∧ State.READY.value = 20 ∧
      State.EXECUTING.value = 30 ∧ State.PAUSED.value = 40 ∧
      State.ERROR.value = 100) ∧
    (∀ s : State, s ≠ State.ERROR → s.value < State.ERROR.value) := by
  refine ⟨fun s => ?_, by decide, fun s h => ?_⟩
  · cases s <;> simp
  · cases s <;> first | exact absurd rfl h | decide

/-- Witness for C2: READY is not ERROR and its ordinal 20 is below ERROR's 100. -/
theorem C2_state_enum_ordinals_witness :
    State.READY.value < State.ERROR.value :=
  C2_state_enum_ordinals.2.2 State.READY (by decide)

/-- C1: every `QueuedPrinterCallbacks` event method among `log`,
`state_change`, `temp_update`, `position_update` and `progress_update`,
called when the queue can accept an item, places exactly one record on the
`from_printer` queue: the JSON serialization of an object with
`jsonrpc = "2.0"`, `event` set to the event's name, and a `params` object
carrying exactly the kind-specific fields (ordinals for `state_change`). -/
theorem C1_event_wire_format (q : MPQueue) (h : q.hasRoom = true)
    (level : Int) (message : String) (old new : State)
    (bc bt n1c n1t n2c n2t : Rat) (x y z : Rat) (cl tl : Int) :
    QueuedPrinterCallbacks.log q level message =
      PutOutcome.placed ⟨q.maxsize, q.items ++ [json.dumps (JValue.obj
        [("event", .str "log"),
         ("params", .obj [("level", .int level), ("msg", .str message)]),
         ("jsonrpc", .str "2.0")])]⟩ ∧
    QueuedPrinterCallbacks.state_change q old new =
      PutOutcome.placed ⟨q.maxsize, q.items ++ [json.dumps (JValue.obj
        [("event", .str "state_change"),
         ("params", .obj [("old", .int old.value), ("new", .int new.value)]),
         ("jsonrpc", .str "2.0")])]⟩ ∧
    QueuedPrinterCallbacks.temp_update q bc bt n1c n1t n2c n2t =
      PutOutcome.placed ⟨q.maxsize, q.items ++ [json.dumps (JValue.obj
        [("event", .str "temp_update"),
         ("params", .obj [("bed_current", .rat bc), ("bed_target", .rat bt),
                          ("nozzle1_current", .rat n1c), ("nozzle1_target", .rat n1t),
                          ("nozzle2_current", .rat n2c), ("nozzle2_target", .rat n2t)]),
         ("jsonrpc", .str "2.0")])]⟩ ∧
    QueuedPrinterCallbacks.position_update q x y z =
      PutOutcome.placed ⟨q.maxsize, q.items ++ [json.dumps (JValue.obj
        [("event", .str "position_update"),
         ("params", .obj [("x", .rat x), ("y", .rat y), ("z", .rat z)]),
         ("jsonrpc", .str "2.0")])]⟩ ∧
    QueuedPrinterCallbacks.progress_update q cl tl =
      PutOutcome.placed ⟨q.maxsize, q.items ++ [json.dumps (JValue.obj
        [("event", .str "progress_update"),
         ("params", .obj [("current_line", .int cl), ("total_lines", .int tl)]),
         ("jsonrpc", .str "2.0")])]⟩ := by
  refine ⟨?_, ?_, ?_, ?_, ?_⟩ <;>
    simp [QueuedPrinterCallbacks.log, QueuedPrinterCallbacks.state_change,
      QueuedPrinterCallbacks.temp_update, QueuedPrinterCallbacks.position_update,
      QueuedPrinterCallbacks.progress_update, QueuedPrinterCallbacks.publish,
      MPQueue.put, h]

/-- Witness for C1: on an unbounded empty queue, `log(7, "hi")` places
exactly the serialized log record. -/
theorem C1_event_wire_format_witness :
    QueuedPrinterCallbacks.log ⟨0, []⟩ 7 "hi" =
      PutOutcome.placed ⟨0, [json.dumps (JValue.obj
        [("event", .str "log"),
         ("params", .obj [("level", .int 7), ("msg", .str "hi")]),
         ("jsonrpc", .str "2.0")])]⟩ :=
  (C1_event_wire_format ⟨0, []⟩ rfl 7 "hi" State.READY State.READY
    0 0 0 0 0 0 0 0 0 0 0).1

/-- C3: `z_change(position)`, called when the queue can accept an item,
enqueues a record that is NOT wrapped under a `params` key: exactly the
top-level fields `event = "z_change"`, `position`, `jsonrpc = "2.0"`
(in dict insertion order), with no `params` field at all. -/
theorem C3_z_change_flat (q : MPQueue) (h : q.hasRoom = true) (position : Rat) :
    QueuedPrinterCallbacks.z_change q position =
      PutOutcome.placed ⟨q.maxsize, q.items ++ [json.dumps (JValue.obj
        [("event", .str "z_change"), ("position", .rat position),
         ("jsonrpc", .str "2.0")])]⟩ ∧
    (([("event", JValue.str "z_change"), ("position", JValue.rat position),
       ("jsonrpc", JValue.str "2.0")].map Prod.fst)
      = ["event", "position", "jsonrpc"] ∧
     "params" ∉ ([("event", JValue.str "z_change"), ("position", JValue.rat position),
       ("jsonrpc", JValue.str "2.0")].map Prod.fst)) := by
  refine ⟨?_, by simp, by simp⟩
  simp [QueuedPrinterCallbacks.z_change, QueuedPrinterCallbacks.publish, MPQueue.put, h]

/-- Witness for C3: on an unbounded empty queue, `z_change(5)` places the
flat record. -/
theorem C3_z_change_flat_witness :
    QueuedPrinterCallbacks.z_change ⟨0, []⟩ 5 =
      PutOutcome.placed ⟨0, [json.dumps (JValue.obj
        [("event", .str "z_change"), ("position", .rat 5),
         ("jsonrpc", .str "2.0")])]⟩ :=
  (C3_z_change_flat ⟨0, []⟩ rfl 5).1

/-- C7 counterexample: the claim says a publish attempt never blocks and, on
a bounded full queue, fails loudly.  On the bounded queue of capacity 1
already holding one record, `state_change` blocks (the code calls
`Queue.put` with the default `block=True`, `timeout=None`). -/
theorem C7_counterexample_publish_blocks :
    QueuedPrinterCallbacks.state_change ⟨1, ["r"]⟩ State.READY State.EXECUTING =
      PutOutcome.blocked := by
  decide

/-- C7 amended: whenever the outbound queue is bounded and full, `_publish`
blocks indefinitely (it neither fails loudly nor drops the record); it places
a record only when the queue has room. -/
theorem C7_amended_publish_blocks_when_full (q : MPQueue)
    (h : q.hasRoom = false) (event : List (String × JValue)) :
    QueuedPrinterCallbacks.publish q event = PutOutcome.blocked := by
  simp [QueuedPrinterCallbacks.publish, MPQueue.put, h]

/-- Witness for the amended C7: the bounded, full queue of capacity 1 blocks
any publish. -/
theorem C7_amended_publish_blocks_when_full_witness :
    QueuedPrinterCallbacks.publish ⟨1, ["r"]⟩ [("event", JValue.str "log")] =
      PutOutcome.blocked :=
  C7_amended_publish_blocks_when_full ⟨1, ["r"]⟩ rfl [("event", JValue.str "log")]

/-- C4: for every current state and every new state, `_update_state(n)`
unconditionally sets the state to `n` and fires exactly one
`state_change(old, n)` callback, with no validation of legality (there is
no precondition and no other outcome). -/
theorem C4_update_state_unconditional (p : IPrinter.PrinterState) (n : State) :
    (IPrinter.update_state p n).state = n ∧
    (IPrinter.update_state p n).events = p.events ++ [(p.state, n)] := by
  exact ⟨rfl, rfl⟩

/-- C10: calling `_update_state(s)` while the state is already `s` still
fires a `state_change` event with old and new both `s`: self-transitions
are not deduplicated or suppressed. -/
theorem C10_self_transition_fires (s : State) (evs : List (State × State)) :
    IPrinter.update_state ⟨s, evs⟩ s = ⟨s, evs ++ [(s, s)]⟩ := by
  rfl

/-- Helper: appending the event fired from the chain's end state keeps the
chain consistent. -/
theorem chainFrom_append_endState (l : List (State × State)) (s n : State)
    (h : IPrinter.chainFrom s l = true) :
    IPrinter.chainFrom s (l ++ [(IPrinter.endState s l, n)]) = true := by
  induction l generalizing s with
  | nil => simp [IPrinter.chainFrom, IPrinter.endState]
  | cons hd tl ih =>
    obtain ⟨old, new⟩ := hd
    simp only [IPrinter.chainFrom, Bool.and_eq_true, beq_iff_eq] at h
    simpa [IPrinter.chainFrom, IPrinter.endState, h.1] using ih new h.2

/-- Helper: the end state of a chain extended by one event is that event's
new state. -/
theorem endState_append (l : List (State × State)) (s e n : State) :
    IPrinter.endState s (l ++ [(e, n)]) = n := by
  induction l generalizing s with
  | nil => rfl
  | cons hd tl ih =>
    obtain ⟨o, nw⟩ := hd
    exact ih nw

/-- Helper invariant: running any sequence of `_update_state` calls from a
printer whose event chain is consistent from `s0` and ends at the current
state keeps that invariant. -/
theorem runUpdates_chain_invariant (ns : List State) (p : IPrinter.PrinterState)
    (s0 : State) (hc : IPrinter.chainFrom s0 p.events = true)
    (he : IPrinter.endState s0 p.events = p.state) :
    IPrinter.chainFrom s0 (IPrinter.runUpdates p ns).events = true ∧
    IPrinter.endState s0 (IPrinter.runUpdates p ns).events =
      (IPrinter.runUpdates p ns).state := by
  induction ns generalizing p with
  | nil => exact ⟨hc, he⟩
  | cons n tl ih =>
    have hc' : IPrinter.chainFrom s0 (IPrinter.update_state p n).events = true := by
      simpa [IPrinter.update_state, he] using
        chainFrom_append_endState p.events s0 n hc
    have he' : IPrinter.endState s0 (IPrinter.update_state p n).events =
        (IPrinter.update_state p n).state := by
      simp [IPrinter.update_state, endState_append]
    exact ih (IPrinter.update_state p n) hc' he'

/-- C5: for every finite sequence of `_update_state` calls applied to a
freshly constructed controller, the fired `state_change` events form a
consistent chain: the first event's old field is DISCONNECTED (the state
set at construction) and each subsequent event's old field equals the
preceding event's new field. -/
theorem C5_state_change_chain (ns : List State) :
    IPrinter.chainFrom State.DISCONNECTED
      (IPrinter.runUpdates IPrinter.init ns).events = true :=
  (runUpdates_chain_invariant ns IPrinter.init State.DISCONNECTED rfl rfl).1

/-- C8: constructing a controller with `printer_callbacks=None` installs the
no-op `PrinterCallbacks` sink, and every one of its event methods (`log`,
`state_change`, `temp_update`, `position_update`, `progress_update`,
`z_change`) publishes nothing. -/
theorem C8_default_noop_callbacks :
    IPrinter.initCallbacks none = CallbackKind.base ∧
    (∀ level message, PrinterCallbacks.log level message = []) ∧
    (∀ old new, PrinterCallbacks.state_change old new = []) ∧
    (∀ a b c d e f, PrinterCallbacks.temp_update a b c d e f = []) ∧
    (∀ x y z, PrinterCallbacks.position_update x y z = []) ∧
    (∀ cl tl, PrinterCallbacks.progress_update cl tl = []) ∧
    (∀ nz, PrinterCallbacks.z_change nz = []) :=
  ⟨rfl, fun _ _ => rfl, fun _ _ => rfl, fun _ _ _ _ _ _ => rfl,
   fun _ _ _ => rfl, fun _ _ => rfl, fun _ => rfl⟩

/-- C9: `StateEncoder.default` returns an enum member's name as a string
(so `State.ERROR` serializes to "ERROR", not its ordinal 100), while any
non-enum object is delegated to the base `JSONEncoder.default`, which
raises `TypeError`. -/
theorem C9_state_encoder_names :
    (∀ name : String, StateEncoder.default (PyValue.enumMember name) = Except.ok name) ∧
    (∀ s : State, StateEncoder.default s.toPy = Except.ok s.name) ∧
    StateEncoder.default State.ERROR.toPy = Except.ok "ERROR" ∧
    (∀ o : String, StateEncoder.default (PyValue.other o) =
      JSONEncoder.default (PyValue.other o)) ∧
    (∀ o : String, JSONEncoder.default (PyValue.other o) =
      Except.error "TypeError") :=
  ⟨fun _ => rfl, fun _ => rfl, rfl, fun _ => rfl, fun _ => rfl⟩

/-- C6: invoking any state-gated operation (`set_temp`,
`move_head_relative`, `move_head_absolute`, `home_head`, `execute_gcode`,
`pause_execution`, `resume_execution`, `stop_execution`) while the
controller's state does not satisfy its precondition raises
`NotReadyException`, performs no hardware side effect, and leaves the
controller (state and hardware log) unchanged. -/
theorem C6_gated_ops_not_ready (c : Controller) (op : Op)
    (h : c.state ∉ op.required) :
    c.invoke op = InvokeResult.notReady c := by
  simp [Controller.invoke, h]

/-- Witness for C6: `set_temp` invoked while DISCONNECTED is rejected with
no effect. -/
theorem C6_gated_ops_not_ready_witness :
    Controller.invoke ⟨State.DISCONNECTED, []⟩ Op.set_temp =
      InvokeResult.notReady ⟨State.DISCONNECTED, []⟩ :=
  C6_gated_ops_not_ready ⟨State.DISCONNECTED, []⟩ Op.set_temp (by decide)

end OpenGB
